import Mathlib

/-!
Shallow embedding of the Atelier Backend (Express + Supabase) request
handlers and middleware, as found in `src/index.js` (two concatenated
variants, called A and B below) and `src/unnamed/part_000` (the auth
middlewares) / `src/unnamed/part_001` (the older full server, called
variant 001 below).

External stores (Supabase auth, Postgres tables, object storage) are
modelled as explicit inputs: each handler receives the results the
store calls would produce and returns the HTTP response it sends
together with the list of store effects it performed, in order.
-/

namespace Atelier

/-- A JSON-ish value, used for the row objects the handlers build and
insert (`images.push({...})`).  Only strings and integers occur. -/
inductive JsVal where
  | str : String → JsVal
  | num : Int → JsVal
deriving Repr, DecidableEq

/-- A row object as built by the JS code: an ordered list of
key/value fields, mirroring a JS object literal. -/
abbrev JsRow := List (String × JsVal)

/-- Field lookup in a row object (reading `row.key`). -/
def rowGet (r : JsRow) (k : String) : Option JsVal :=
  (r.find? (fun kv => kv.1 == k)).map (fun kv => kv.2)

/-- A product-image row as selected by GET /products in the index.js
variants: `product_images ( id, url, order_index )`. -/
structure ImgRow where
  id : String
  url : String
  order_index : Int
deriving Repr, DecidableEq

/-- A product row as selected by GET /products, with its embedded
images. -/
structure ProductFull where
  id : String
  title : String
  description : String
  product_images : List ImgRow
deriving Repr, DecidableEq

/-- A profile row as read and written by GET /me
(`select("role")`, `insert({ id, role })`). -/
structure ProfileRow where
  id : String
  role : String
deriving Repr, DecidableEq

/-- A profile row as selected by GET /admin/clients
(`select("cpf, telefone, role")`). -/
structure ClientRow where
  cpf : String
  telefone : String
  role : String
deriving Repr, DecidableEq

/-- Response bodies the handlers actually send. -/
inductive RespBody where
  | okTrue : RespBody
  | errMsg : String → RespBody
  | products : List ProductFull → RespBody
  | mePayload : (id role : String) → RespBody
  | clients : List ClientRow → RespBody
deriving Repr, DecidableEq

/-- An HTTP response: status code and JSON body. -/
structure HttpResp where
  status : Nat
  body : RespBody
deriving Repr, DecidableEq

/-- The store calls a handler can perform, recorded in order. -/
inductive Effect where
  | insertProduct : (title description : String) → Effect
  | uploadBlob : (bucket key buffer contentType : String) → Effect
  | insertImageRows : List JsRow → Effect
  | queryImages : (productId : String) → Effect
  | removeBlob : (bucket key : String) → Effect
  | deleteProductRow : (id : String) → Effect
  | queryProfileRole : (uid : String) → Effect
  | insertProfileRow : (id role : String) → Effect
deriving Repr, DecidableEq

/-- Effects that write to a store (as opposed to reads). -/
def isWriteEffect : Effect → Bool
  | .insertProduct _ _ => true
  | .uploadBlob _ _ _ _ => true
  | .insertImageRows _ => true
  | .removeBlob _ _ => true
  | .deleteProductRow _ => true
  | .insertProfileRow _ _ => true
  | .queryImages _ => false
  | .queryProfileRole _ => false

def isUploadBlob : Effect → Bool
  | .uploadBlob _ _ _ _ => true
  | _ => false

def isInsertImages : Effect → Bool
  | .insertImageRows _ => true
  | _ => false

def isRemoveBlob : Effect → Bool
  | .removeBlob _ _ => true
  | _ => false

def isDeleteRow : Effect → Bool
  | .deleteProductRow _ => true
  | _ => false

/-- Keys of the blobs a trace uploaded. -/
def blobKeys (tr : List Effect) : List String :=
  tr.filterMap (fun e =>
    match e with
    | .uploadBlob _ k _ _ => some k
    | _ => none)

/-- Batches of image rows a trace inserted. -/
def insertedBatches (tr : List Effect) : List (List JsRow) :=
  tr.filterMap (fun e =>
    match e with
    | .insertImageRows rows => some rows
    | _ => none)

/-! ## String helpers mirroring the JS string operations used -/

/-- Core of `replaceFirst` on character lists: JS
`String.prototype.replace` with a string pattern replaces only the
first occurrence. -/
def replaceFirstChars (pat rep : List Char) : List Char → List Char
  | [] => if pat = [] then rep else []
  | c :: rest =>
      if pat.isPrefixOf (c :: rest) then rep ++ (c :: rest).drop pat.length
      else c :: replaceFirstChars pat rep rest

/-- JS `s.replace(pat, rep)` for a plain-string pattern: replace the
first occurrence only. -/
def replaceFirst (s pat rep : String) : String :=
  ⟨replaceFirstChars pat.data rep.data s.data⟩

/-- Core of `splitOnChar`, accumulating the current segment. -/
def splitOnCharAux (sep : Char) : List Char → List Char → List String
  | [], acc => [⟨acc.reverse⟩]
  | c :: rest, acc =>
      if c = sep then ⟨acc.reverse⟩ :: splitOnCharAux sep rest []
      else splitOnCharAux sep rest (c :: acc)

/-- JS `s.split(sep)` for a single-character separator. -/
def splitOnChar (sep : Char) (s : String) : List String :=
  splitOnCharAux sep s.data []

/-- JS `url.split("/").pop()`: the last path segment of a URL. -/
def lastSegment (url : String) : String :=
  (splitOnChar '/' url).getLastD ""

/-- JS `["a","b"].join("/")`. -/
def joinSlash : List String → String
  | [] => ""
  | [x] => x
  | x :: xs => x ++ "/" ++ joinSlash xs

/-- JS `url.split("/").slice(-2).join("/")`: the last two path
segments of a URL (or the whole thing when it has fewer). -/
def lastTwoSegments (url : String) : String :=
  let parts := splitOnChar '/' url
  joinSlash (parts.drop (parts.length - 2))

/-- JS `name.split(".").pop()`: the file extension used by the
create-variant-B blob key. -/
def extOf (name : String) : String :=
  (splitOnChar '.' name).getLastD ""

/-! ## Auth middleware (src/unnamed/part_000, `auth`) -/

/-- The authenticated user attached to the request
(`req.user = data.user`). -/
structure AuthedUser where
  id : String
deriving Repr, DecidableEq

/-- Result of `supabase.auth.getUser(token)`: an error and/or a user,
mirroring the `{ data, error }` shape the JS destructures. -/
structure GetUserRes where
  error : Option String
  user : Option AuthedUser
deriving Repr, DecidableEq

/-- One run of the auth middleware: the response it sent (if any),
the users it passed to `next()`, and the tokens it sent to the
identity provider. -/
structure AuthRun where
  resp : Option HttpResp
  nextUsers : List AuthedUser
  idpCalls : List String
deriving Repr, DecidableEq

/-- JS `authHeader.replace("Bearer ", "")`. -/
def bearerToken (h : String) : String :=
  replaceFirst h "Bearer " ""

/-- The `auth` middleware of src/unnamed/part_000.  A missing header
and an empty-string header both fail the JS truthiness test
`if (!authHeader)`. -/
def auth (authHeader : Option String) (getUser : String → GetUserRes) : AuthRun :=
  match authHeader with
  | none => ⟨some ⟨401, .errMsg "Token não enviado"⟩, [], []⟩
  | some h =>
      if h = "" then ⟨some ⟨401, .errMsg "Token não enviado"⟩, [], []⟩
      else
        let token := bearerToken h
        match getUser token with
        | ⟨some _, _⟩ => ⟨some ⟨401, .errMsg "Token inválido"⟩, [], [token]⟩
        | ⟨none, none⟩ => ⟨some ⟨401, .errMsg "Token inválido"⟩, [], [token]⟩
        | ⟨none, some u⟩ => ⟨none, [u], [token]⟩

/-! ## Admin gate middleware (src/unnamed/part_000, `adminOnly`) -/

/-- The row returned by `select("role")...single()`. -/
structure RoleRow where
  role : String
deriving Repr, DecidableEq

/-- Result of the profile lookup in `adminOnly`, mirroring the
`{ data, error }` it destructures. -/
structure RoleLookup where
  error : Option String
  row : Option RoleRow
deriving Repr, DecidableEq

/-- One run of the admin gate: the response it sent (if any), how
many times it invoked `next()`, and its store effects. -/
structure AdminRun where
  resp : Option HttpResp
  nextCount : Nat
  effects : List Effect
deriving Repr, DecidableEq

/-- The `adminOnly` middleware of src/unnamed/part_000:
`if (error || !data || data.role !== "admin")` fail 403, else
`next()`. The only store interaction is the role select. -/
def adminOnly (uid : String) (lk : RoleLookup) : AdminRun :=
  let eff := [Effect.queryProfileRole uid]
  match lk.error, lk.row with
  | some _, _ => ⟨some ⟨403, .errMsg "Acesso negado"⟩, 0, eff⟩
  | none, none => ⟨some ⟨403, .errMsg "Acesso negado"⟩, 0, eff⟩
  | none, some r =>
      if r.role = "admin" then ⟨none, 1, eff⟩
      else ⟨some ⟨403, .errMsg "Acesso negado"⟩, 0, eff⟩

end Atelier

namespace Atelier

/-- C6: the auth middleware sends 401 "Token não enviado" without
consulting the identity provider when the Authorization header is
absent (or empty, which JS truthiness treats the same); sends 401
"Token inválido" when the provider errors or returns no user; and
otherwise attaches the resolved user and invokes the next stage
exactly once. -/
theorem c6_auth_middleware (hdr : Option String) (g : String → GetUserRes) :
    ((hdr = none ∨ hdr = some "") →
       auth hdr g = ⟨some ⟨401, .errMsg "Token não enviado"⟩, [], []⟩) ∧
    (∀ h, hdr = some h → h ≠ "" →
       (((g (bearerToken h)).error.isSome = true ∨ (g (bearerToken h)).user = none) →
          auth hdr g = ⟨some ⟨401, .errMsg "Token inválido"⟩, [], [bearerToken h]⟩) ∧
       (∀ u, g (bearerToken h) = ⟨none, some u⟩ →
          auth hdr g = ⟨none, [u], [bearerToken h]⟩ ∧
          (auth hdr g).nextUsers.length = 1)) := by
  refine ⟨?_, ?_⟩
  · rintro (rfl | rfl)
    · rfl
    · simp [auth]
  · rintro h rfl hne
    refine ⟨?_, ?_⟩
    · intro hbad
      simp only [auth, if_neg hne]
      rcases hg : g (bearerToken h) with ⟨e, u⟩
      rcases e with _ | e
      · rcases u with _ | u
        · rfl
        · rw [hg] at hbad
          simp at hbad
      · rfl
    · intro u hu
      simp [auth, if_neg hne, hu]

/-- Witness for c6_auth_middleware at concrete inputs. -/
theorem c6_auth_middleware_witness :
    auth none (fun _ => ⟨none, some ⟨"u1"⟩⟩) =
      ⟨some ⟨401, .errMsg "Token não enviado"⟩, [], []⟩ ∧
    auth (some "Bearer bad")
        (fun t => if t = "tok" then ⟨none, some ⟨"u1"⟩⟩ else ⟨some "err", none⟩) =
      ⟨some ⟨401, .errMsg "Token inválido"⟩, [], ["bad"]⟩ ∧
    auth (some "Bearer tok")
        (fun t => if t = "tok" then ⟨none, some ⟨"u1"⟩⟩ else ⟨some "err", none⟩) =
      ⟨none, [⟨"u1"⟩], ["tok"]⟩ := by
  refine ⟨?_, ?_, ?_⟩
  · exact (c6_auth_middleware none (fun _ => ⟨none, some ⟨"u1"⟩⟩)).1 (Or.inl rfl)
  · have h := ((c6_auth_middleware (some "Bearer bad")
      (fun t => if t = "tok" then ⟨none, some ⟨"u1"⟩⟩ else ⟨some "err", none⟩)).2
      "Bearer bad" rfl (by decide)).1
    have hb : bearerToken "Bearer bad" = "bad" := by decide
    rw [hb] at h
    exact h (by decide)
  · have h := (((c6_auth_middleware (some "Bearer tok")
      (fun t => if t = "tok" then ⟨none, some ⟨"u1"⟩⟩ else ⟨some "err", none⟩)).2
      "Bearer tok" rfl (by decide)).2 ⟨"u1"⟩)
    have hb : bearerToken "Bearer tok" = "tok" := by decide
    rw [hb] at h
    exact (h (by decide)).1

/-- C7: the admin gate responds 403 "Acesso negado" when the profile
lookup errors, returns no row, or returns a non-admin role; otherwise
it invokes the next stage; and it performs no store writes, its only
effect being the role select. -/
theorem c7_admin_gate (uid : String) (lk : RoleLookup) :
    ((lk.error.isSome = true ∨ lk.row = none ∨
        (∃ r, lk.row = some r ∧ r.role ≠ "admin")) →
       adminOnly uid lk =
         ⟨some ⟨403, .errMsg "Acesso negado"⟩, 0, [.queryProfileRole uid]⟩) ∧
    (∀ r, lk.error = none → lk.row = some r → r.role = "admin" →
       adminOnly uid lk = ⟨none, 1, [.queryProfileRole uid]⟩) ∧
    (adminOnly uid lk).effects.all (fun e => !(isWriteEffect e)) = true ∧
    (adminOnly uid lk).effects = [.queryProfileRole uid] := by
  rcases lk with ⟨e, row⟩
  refine ⟨?_, ?_, ?_, ?_⟩
  · rintro (he | hrow | ⟨r, hr, hrole⟩)
    · rcases e with _ | e
      · simp at he
      · rfl
    · rcases e with _ | e
      · simp only at hrow
        subst hrow
        rfl
      · rfl
    · rcases e with _ | e
      · simp only at hr
        subst hr
        simp only [adminOnly, if_neg hrole]
      · rfl
  · rintro r he hrow hrole
    simp only at he hrow
    subst he
    subst hrow
    simp only [adminOnly, if_pos hrole]
  · rcases e with _ | e
    · rcases row with _ | r
      · rfl
      · simp only [adminOnly]
        split <;> rfl
    · rfl
  · rcases e with _ | e
    · rcases row with _ | r
      · rfl
      · simp only [adminOnly]
        split <;> rfl
    · rfl

/-- Witness for c7_admin_gate at concrete inputs. -/
theorem c7_admin_gate_witness :
    adminOnly "u1" ⟨none, some ⟨"cliente"⟩⟩ =
      ⟨some ⟨403, .errMsg "Acesso negado"⟩, 0, [.queryProfileRole "u1"]⟩ ∧
    adminOnly "u2" ⟨none, some ⟨"admin"⟩⟩ =
      ⟨none, 1, [.queryProfileRole "u2"]⟩ := by
  refine ⟨?_, ?_⟩
  · exact (c7_admin_gate "u1" ⟨none, some ⟨"cliente"⟩⟩).1
      (Or.inr (Or.inr ⟨⟨"cliente"⟩, rfl, by decide⟩))
  · exact (c7_admin_gate "u2" ⟨none, some ⟨"admin"⟩⟩).2.1 ⟨"admin"⟩ rfl rfl rfl

end Atelier

namespace Atelier

/-! ## GET /me handlers -/

/-- Lookup of the caller's profile row,
`from("profiles").select("role").eq("id", uid).maybeSingle()`. -/
def findProfile (ps : List ProfileRow) (uid : String) : Option ProfileRow :=
  ps.find? (fun p => p.id == uid)

/-- The GET /me handler of src/unnamed/part_001: when no profile row
exists it inserts `{ id, role: "cliente" }` and answers with that
payload; otherwise it answers with the stored role.  Returns the
response together with the profile table after the request. -/
def meBootstrap (ps : List ProfileRow) (uid : String) :
    HttpResp × List ProfileRow :=
  match findProfile ps uid with
  | none =>
      (⟨200, .mePayload uid "cliente"⟩, ps ++ [⟨uid, "cliente"⟩])
  | some p => (⟨200, .mePayload uid p.role⟩, ps)

/-- The GET /me handler of src/index.js (both variants): answers
`{ id, role: data?.role || "cliente" }` and performs no insert, so
the profile table is returned unchanged. -/
def meDefault (ps : List ProfileRow) (uid : String) :
    HttpResp × List ProfileRow :=
  let role :=
    match findProfile ps uid with
    | some p => if p.role = "" then "cliente" else p.role
    | none => "cliente"
  (⟨200, .mePayload uid role⟩, ps)

/-- Number of profile rows stored for a given user id. -/
def countProfiles (ps : List ProfileRow) (uid : String) : Nat :=
  (ps.filter (fun p => p.id == uid)).length

end Atelier

namespace Atelier

theorem find?_append_of_none {α : Type} (p : α → Bool) (l₁ l₂ : List α)
    (h : l₁.find? p = none) : (l₁ ++ l₂).find? p = l₂.find? p := by
  induction l₁ with
  | nil => rfl
  | cons a l ih =>
      rw [List.cons_append]
      cases hpa : p a with
      | true =>
          rw [List.find?_cons_of_pos _ hpa] at h
          exact absurd h (by simp)
      | false =>
          have hpa' : ¬ p a = true := by simp [hpa]
          rw [List.find?_cons_of_neg _ hpa'] at h
          rw [List.find?_cons_of_neg _ hpa']
          exact ih h

/-- C1 (amended): in the part_001 variant, GET /me for a user with no
profile row inserts Profile(role="cliente"), answers
`{ id, role: "cliente" }`, and a second call returns the same body
without inserting a duplicate (exactly one row for that id remains);
the index.js variants answer the same body but leave the profile
table untouched. -/
theorem c1_me_bootstrap (ps : List ProfileRow) (uid : String)
    (h : findProfile ps uid = none) :
    meBootstrap ps uid =
      (⟨200, .mePayload uid "cliente"⟩, ps ++ [⟨uid, "cliente"⟩]) ∧
    meBootstrap (ps ++ [⟨uid, "cliente"⟩]) uid =
      (⟨200, .mePayload uid "cliente"⟩, ps ++ [⟨uid, "cliente"⟩]) ∧
    countProfiles (ps ++ [⟨uid, "cliente"⟩]) uid = 1 ∧
    meDefault ps uid = (⟨200, .mePayload uid "cliente"⟩, ps) := by
  have hfound : findProfile (ps ++ [⟨uid, "cliente"⟩]) uid =
      some ⟨uid, "cliente"⟩ := by
    unfold findProfile at h ⊢
    rw [find?_append_of_none _ _ _ h]
    simp [List.find?]
  have hfilter : ps.filter (fun p => p.id == uid) = [] := by
    rw [List.filter_eq_nil_iff]
    intro a ha
    have := List.find?_eq_none.mp h a ha
    simpa using this
  refine ⟨?_, ?_, ?_, ?_⟩
  · simp [meBootstrap, h]
  · simp [meBootstrap, hfound]
  · unfold countProfiles
    rw [List.filter_append, hfilter]
    simp
  · simp [meDefault, h]

/-- Witness for c1_me_bootstrap at a concrete input. -/
theorem c1_me_bootstrap_witness :
    meBootstrap [] "u1" =
      (⟨200, .mePayload "u1" "cliente"⟩, [⟨"u1", "cliente"⟩]) ∧
    countProfiles [(⟨"u1", "cliente"⟩ : ProfileRow)] "u1" = 1 := by
  have h := c1_me_bootstrap [] "u1" rfl
  exact ⟨h.1, h.2.2.1⟩

/-- C1 counterexample: the GET /me handler of src/index.js, given a
user with no profile row, answers `{ id, role: "cliente" }` but
creates no Profile row — the profile table stays empty, refuting the
claim that every GET /me self-heals a missing Profile. -/
theorem c1_me_no_insert_counterexample :
    meDefault [] "u1" = (⟨200, .mePayload "u1" "cliente"⟩, []) ∧
    countProfiles (meDefault [] "u1").2 "u1" = 0 := by
  exact ⟨rfl, rfl⟩

/-! ## GET /products handlers -/

/-- Comparison used by the image sort of the second index.js variant,
`(a, b) => a.order_index - b.order_index` (ascending order_index). -/
def imgLe (a b : ImgRow) : Prop :=
  a.order_index ≤ b.order_index

instance : DecidableRel imgLe := fun a b =>
  inferInstanceAs (Decidable (a.order_index ≤ b.order_index))

instance : IsTotal ImgRow imgLe :=
  ⟨fun a b => le_total a.order_index b.order_index⟩

instance : IsTrans ImgRow imgLe :=
  ⟨fun _ _ _ h1 h2 => le_trans h1 h2⟩

/-- The in-place `p.product_images.sort(...)` of the second index.js
variant, embedded as a comparison sort by `imgLe`. -/
def sortImages (l : List ImgRow) : List ImgRow :=
  List.insertionSort imgLe l

/-- The GET /products handler of the first index.js variant
(lines 69–89): on error 500, otherwise the rows exactly as the store
returned them — the nested images are not sorted. -/
def getProductsA (result : Except String (List ProductFull)) : HttpResp :=
  match result with
  | .error m => ⟨500, .errMsg m⟩
  | .ok rows => ⟨200, .products rows⟩

/-- The GET /products handler of the second index.js variant
(lines 289–316): on error 500, otherwise the rows with each
product's images sorted by order_index ascending. -/
def getProductsB (result : Except String (List ProductFull)) : HttpResp :=
  match result with
  | .error m => ⟨500, .errMsg m⟩
  | .ok rows =>
      ⟨200, .products (rows.map
        (fun p => { p with product_images := sortImages p.product_images }))⟩

/-- C2 (amended): in the index.js variant that sorts, every product
in a successful GET /products response carries its images with
adjacent order_index values ascending. -/
theorem c2_products_sorted (rows : List ProductFull) :
    getProductsB (.ok rows) =
      ⟨200, .products (rows.map
        (fun p => { p with product_images := sortImages p.product_images }))⟩ ∧
    ∀ p ∈ rows.map
        (fun p => { p with product_images := sortImages p.product_images }),
      List.Chain' imgLe p.product_images := by
  refine ⟨rfl, ?_⟩
  intro p hp
  obtain ⟨q, _, rfl⟩ := List.mem_map.1 hp
  exact (List.sorted_insertionSort imgLe q.product_images).chain'

/-- Concrete store rows used by the C2 witness. -/
def c2Rows : List ProductFull :=
  [⟨"p1", "t", "d", [⟨"i1", "u1", 5⟩, ⟨"i2", "u2", 2⟩]⟩]

/-- Witness for c2_products_sorted at a concrete input. -/
theorem c2_products_sorted_witness :
    getProductsB (.ok c2Rows) =
      ⟨200, .products [⟨"p1", "t", "d", [⟨"i2", "u2", 2⟩, ⟨"i1", "u1", 5⟩]⟩]⟩ ∧
    List.Chain' imgLe [ImgRow.mk "i2" "u2" 2, ImgRow.mk "i1" "u1" 5] := by
  have h := c2_products_sorted c2Rows
  refine ⟨h.1.trans (by decide), ?_⟩
  have hm : (⟨"p1", "t", "d", [⟨"i2", "u2", 2⟩, ⟨"i1", "u1", 5⟩]⟩ : ProductFull) ∈
      c2Rows.map
        (fun p => { p with product_images := sortImages p.product_images }) := by
    decide
  exact h.2 _ hm

/-- A store result whose images come back in descending order. -/
def unsortedProduct : ProductFull :=
  ⟨"p1", "t", "d", [⟨"i1", "u1", 1⟩, ⟨"i2", "u2", 0⟩]⟩

/-- C2 counterexample: the first index.js GET /products variant
returns the store rows unchanged, so when the store hands back a
product whose images are not ascending by order_index, the response
carries them unsorted — refuting the claim for that handler. -/
theorem c2_unsorted_counterexample :
    getProductsA (.ok [unsortedProduct]) = ⟨200, .products [unsortedProduct]⟩ ∧
    ¬ List.Chain' imgLe unsortedProduct.product_images := by
  refine ⟨rfl, ?_⟩
  intro hch
  have hpair := List.chain'_pair.mp hch
  exact absurd hpair (by decide)

end Atelier

namespace Atelier

/-! ## POST /products handlers -/

/-- One multipart file part (`req.files[i]`). -/
structure FileUpload where
  originalname : String
  mimetype : String
  buffer : String
deriving Repr, DecidableEq

/-- A POST /products request after body/file parsing. -/
structure CreateReq where
  title : String
  description : String
  files : List FileUpload
deriving Repr, DecidableEq

/-- The product row returned by `insert(...).select().single()`; the
handlers consume only its id. -/
structure ProductRecord where
  id : String
deriving Repr, DecidableEq

/-- Results the external stores return during one POST /products
request: the product insert, the i-th blob upload, the image batch
insert, `Date.now()` at the i-th loop iteration, and the public-URL
prefix `getPublicUrl` prepends to a key. -/
structure CreateEnv where
  insertProductResult : Except String ProductRecord
  uploadResult : Nat → Option String
  insertImagesResult : Option String
  now : Nat → Nat
  urlBase : String

/-- Blob key of the first index.js variant:
`${product.id}-${Date.now()}-${i}`. -/
def fileNameA (pid : String) (t : Nat) (i : Nat) : String :=
  pid ++ "-" ++ toString t ++ "-" ++ toString i

/-- Blob key of the second index.js variant:
`${product.id}/${crypto.randomUUID()}.${ext}`. -/
def fileNameB (pid uuid ext : String) : String :=
  pid ++ "/" ++ uuid ++ "." ++ ext

/-- Blob key of the part_001 variant:
`${Date.now()}-${file.originalname}`. -/
def fileName001 (t : Nat) (originalname : String) : String :=
  toString t ++ "-" ++ originalname

/-- The image row the index.js variants push:
`{ product_id, url, order_index: i }`. -/
def imgRowA (pid url : String) (i : Nat) : JsRow :=
  [("product_id", .str pid), ("url", .str url),
   ("order_index", .num (Int.ofNat i))]

/-- The image row the part_001 variant pushes: `{ product_id, url }`
— it has no order_index field. -/
def imgRow001 (pid url : String) : JsRow :=
  [("product_id", .str pid), ("url", .str url)]

/-- Key derivation of the first index.js variant as used in its loop. -/
def keyOfA (pid : String) (env : CreateEnv) : Nat → FileUpload → String :=
  fun i _ => fileNameA pid (env.now i) i

/-- Row builder of the index.js variants. -/
def rowOfA (pid : String) : String → Nat → JsRow :=
  fun url i => imgRowA pid url i

/-- Key derivation of the part_001 variant as used in its loop. -/
def keyOf001 (env : CreateEnv) : Nat → FileUpload → String :=
  fun i f => fileName001 (env.now i) f.originalname

/-- Row builder of the part_001 variant. -/
def rowOf001 (pid : String) : String → Nat → JsRow :=
  fun url _ => imgRow001 pid url

/-- The upload loop of POST /products: for each file derive a key,
attempt the upload (recorded in the trace), abort with 500 on the
first failure, otherwise push the image row; after the loop,
batch-insert the collected rows and answer 201 on success. -/
def uploadLoop (env : CreateEnv) (keyOf : Nat → FileUpload → String)
    (rowOf : String → Nat → JsRow) :
    List FileUpload → Nat → List JsRow → List Effect → HttpResp × List Effect
  | [], _, images, tr =>
      (match env.insertImagesResult with
       | some m => (⟨500, .errMsg m⟩, tr ++ [.insertImageRows images])
       | none => (⟨201, .okTrue⟩, tr ++ [.insertImageRows images]))
  | f :: rest, i, images, tr =>
      let key := keyOf i f
      let tr' := tr ++ [.uploadBlob "photos" key f.buffer f.mimetype]
      (match env.uploadResult i with
       | some m => (⟨500, .errMsg m⟩, tr')
       | none =>
          let url := env.urlBase ++ key
          uploadLoop env keyOf rowOf rest (i + 1) (images ++ [rowOf url i]) tr')

/-- The POST /products handler of the first index.js variant
(validation, product insert, upload loop, image batch insert). -/
def postProductsA (req : CreateReq) (env : CreateEnv) : HttpResp × List Effect :=
  if req.title = "" ∨ req.description = "" then
    (⟨400, .errMsg "Título e descrição são obrigatórios"⟩, [])
  else if req.files = [] then
    (⟨400, .errMsg "Envie ao menos uma imagem"⟩, [])
  else
    match env.insertProductResult with
    | .error m => (⟨500, .errMsg m⟩, [.insertProduct req.title req.description])
    | .ok product =>
        uploadLoop env (keyOfA product.id env) (rowOfA product.id)
          req.files 0 [] [.insertProduct req.title req.description]

/-- The POST /products handler of the part_001 variant: identical
control flow, but the blob key is `Date.now()-originalname` and the
pushed rows carry no order_index. -/
def postProducts001 (req : CreateReq) (env : CreateEnv) : HttpResp × List Effect :=
  if req.title = "" ∨ req.description = "" then
    (⟨400, .errMsg "Título e descrição são obrigatórios"⟩, [])
  else if req.files = [] then
    (⟨400, .errMsg "Envie ao menos uma imagem"⟩, [])
  else
    match env.insertProductResult with
    | .error m => (⟨500, .errMsg m⟩, [.insertProduct req.title req.description])
    | .ok product =>
        uploadLoop env (keyOf001 env) (rowOf001 product.id)
          req.files 0 [] [.insertProduct req.title req.description]

/-- The first `c` upload attempts the loop performs on `files`,
starting at index `i`. -/
def attemptedUploads (keyOf : Nat → FileUpload → String) :
    List FileUpload → Nat → Nat → List Effect
  | _, _, 0 => []
  | [], _, _ + 1 => []
  | f :: rest, i, c + 1 =>
      .uploadBlob "photos" (keyOf i f) f.buffer f.mimetype ::
        attemptedUploads keyOf rest (i + 1) c

/-- The image rows the loop accumulates for `files` starting at
index `i`, when every upload succeeds. -/
def builtRows (env : CreateEnv) (keyOf : Nat → FileUpload → String)
    (rowOf : String → Nat → JsRow) : List FileUpload → Nat → List JsRow
  | [], _ => []
  | f :: rest, i =>
      rowOf (env.urlBase ++ keyOf i f) i ::
        builtRows env keyOf rowOf rest (i + 1)

end Atelier

namespace Atelier

/-! ## DELETE /products/:id handlers -/

/-- A row of `select("url").eq("product_id", id)`. -/
structure UrlRow where
  url : String
deriving Repr, DecidableEq

/-- Results of the blob deletions; the handlers never read them. -/
structure DeleteEnv where
  removeResult : Nat → Option String

/-- The DELETE /products/:id handler of the first index.js variant
(and of part_001): remove one blob per image URL (key = last path
segment), delete the product row, always answer 200. -/
def deleteProductA (id : String) (queryResult : Option (List UrlRow))
    (_env : DeleteEnv) : HttpResp × List Effect :=
  let tr0 := [Effect.queryImages id]
  let tr1 :=
    match queryResult with
    | some images =>
        tr0 ++ images.map (fun img => .removeBlob "photos" (lastSegment img.url))
    | none => tr0
  (⟨200, .okTrue⟩, tr1 ++ [.deleteProductRow id])

/-- The DELETE /products/:id handler of the second index.js variant:
key = last two path segments, loop guarded by `images?.length`. -/
def deleteProductB (id : String) (queryResult : Option (List UrlRow))
    (_env : DeleteEnv) : HttpResp × List Effect :=
  let tr0 := [Effect.queryImages id]
  let tr1 :=
    match queryResult with
    | some images =>
        if images.length = 0 then tr0
        else tr0 ++ images.map
          (fun img => .removeBlob "photos" (lastTwoSegments img.url))
    | none => tr0
  (⟨200, .okTrue⟩, tr1 ++ [.deleteProductRow id])

/-! ## GET /admin/clients handler (part_001) -/

/-- The GET /admin/clients handler: `res.json(data.filter(p =>
p.role !== "admin"))`.  When the query failed, `data` is null and
the `.filter` call throws, modelled by the error branch; no HTTP
response is produced in that case. -/
def adminClients (queryResult : Option (List ClientRow)) : Except String HttpResp :=
  match queryResult with
  | none => .error "TypeError: Cannot read properties of null (reading 'filter')"
  | some rows =>
      .ok ⟨200, .clients (rows.filter (fun p => !(p.role == "admin")))⟩

end Atelier

namespace Atelier

/-- C8: POST /products validates before any store call — a missing or
empty title/description yields the 400 title/description error,
otherwise zero files yields the 400 file error, and in both cases
the effect trace is empty (no Product row, no ProductImage row, no
blob), in both handler variants. -/
theorem c8_validation_first (req : CreateReq) (env : CreateEnv) :
    ((req.title = "" ∨ req.description = "") →
       postProductsA req env =
         (⟨400, .errMsg "Título e descrição são obrigatórios"⟩, []) ∧
       postProducts001 req env =
         (⟨400, .errMsg "Título e descrição são obrigatórios"⟩, [])) ∧
    (req.title ≠ "" → req.description ≠ "" → req.files = [] →
       postProductsA req env = (⟨400, .errMsg "Envie ao menos uma imagem"⟩, []) ∧
       postProducts001 req env = (⟨400, .errMsg "Envie ao menos uma imagem"⟩, [])) := by
  constructor
  · intro h
    constructor
    · simp only [postProductsA, if_pos h]
    · simp only [postProducts001, if_pos h]
  · intro hT hD hF
    have hnot : ¬(req.title = "" ∨ req.description = "") := by
      rintro (h | h)
      · exact hT h
      · exact hD h
    constructor
    · simp only [postProductsA, if_neg hnot, if_pos hF]
    · simp only [postProducts001, if_neg hnot, if_pos hF]

/-- Witness for c8_validation_first at concrete inputs. -/
theorem c8_validation_first_witness :
    postProductsA ⟨"", "d", [⟨"a", "m", "b"⟩]⟩
        ⟨.ok ⟨"p"⟩, fun _ => none, none, fun _ => 0, "u/"⟩ =
      (⟨400, .errMsg "Título e descrição são obrigatórios"⟩, []) ∧
    postProducts001 ⟨"t", "d", []⟩
        ⟨.ok ⟨"p"⟩, fun _ => none, none, fun _ => 0, "u/"⟩ =
      (⟨400, .errMsg "Envie ao menos uma imagem"⟩, []) := by
  constructor
  · exact ((c8_validation_first ⟨"", "d", [⟨"a", "m", "b"⟩]⟩
      ⟨.ok ⟨"p"⟩, fun _ => none, none, fun _ => 0, "u/"⟩).1 (Or.inl rfl)).1
  · exact ((c8_validation_first ⟨"t", "d", []⟩
      ⟨.ok ⟨"p"⟩, fun _ => none, none, fun _ => 0, "u/"⟩).2
      (by decide) (by decide) rfl).2

theorem filter_removeBlob_map (f : UrlRow → String) (l : List UrlRow) :
    (l.map (fun img => Effect.removeBlob "photos" (f img))).filter isRemoveBlob =
      l.map (fun img => Effect.removeBlob "photos" (f img)) := by
  induction l with
  | nil => rfl
  | cons a l ih => simp [isRemoveBlob, ih]

/-- C9: DELETE /products/:id with N image rows performs exactly one
blob removal per image URL (key = trailing path segment in the first
variant, last two segments in the second), then deletes the product
row, and answers 200 { ok: true } for every possible outcome of the
removals — including when the image query itself fails. -/
theorem c9_delete_sequence (id : String) (imgs : List UrlRow) (env : DeleteEnv) :
    deleteProductA id (some imgs) env =
      (⟨200, .okTrue⟩, .queryImages id ::
        (imgs.map (fun img => .removeBlob "photos" (lastSegment img.url)) ++
          [.deleteProductRow id])) ∧
    ((deleteProductA id (some imgs) env).2.filter isRemoveBlob).length =
      imgs.length ∧
    deleteProductB id (some imgs) env =
      (⟨200, .okTrue⟩, .queryImages id ::
        (imgs.map (fun img => .removeBlob "photos" (lastTwoSegments img.url)) ++
          [.deleteProductRow id])) ∧
    deleteProductA id none env =
      (⟨200, .okTrue⟩, [.queryImages id, .deleteProductRow id]) ∧
    deleteProductB id none env =
      (⟨200, .okTrue⟩, [.queryImages id, .deleteProductRow id]) := by
  refine ⟨?_, ?_, ?_, rfl, rfl⟩
  · simp [deleteProductA]
  · have h1 : (deleteProductA id (some imgs) env).2 =
        .queryImages id ::
          (imgs.map (fun img => .removeBlob "photos" (lastSegment img.url)) ++
            [.deleteProductRow id]) := by
      simp [deleteProductA]
    rw [h1]
    rw [List.filter_cons_of_neg (by simp [isRemoveBlob]), List.filter_append]
    rw [filter_removeBlob_map]
    simp [isRemoveBlob]
  · rcases h : imgs with _ | ⟨a, l⟩
    · simp [deleteProductB]
    · simp [deleteProductB]

/-- C10: GET /admin/clients only produces a response when the profile
query succeeds — on a failed query (null data) the handler throws a
TypeError from `.filter` instead of sending any HTTP error — and on
success it answers 200 with exactly the non-admin profile rows. -/
theorem c10_admin_clients (rows : List ClientRow) :
    adminClients none =
      .error "TypeError: Cannot read properties of null (reading 'filter')" ∧
    adminClients (some rows) =
      .ok ⟨200, .clients (rows.filter (fun p => !(p.role == "admin")))⟩ ∧
    ∀ p ∈ rows.filter (fun p => !(p.role == "admin")), p.role ≠ "admin" := by
  refine ⟨rfl, rfl, ?_⟩
  intro p hp
  have hkeep := List.of_mem_filter hp
  simpa using hkeep

/-- Witness for c10_admin_clients at a concrete input. -/
theorem c10_admin_clients_witness :
    adminClients (some [⟨"1", "2", "admin"⟩, ⟨"3", "4", "cliente"⟩]) =
      .ok ⟨200, .clients [⟨"3", "4", "cliente"⟩]⟩ ∧
    (⟨"3", "4", "cliente"⟩ : ClientRow).role ≠ "admin" := by
  have h := c10_admin_clients [⟨"1", "2", "admin"⟩, ⟨"3", "4", "cliente"⟩]
  exact ⟨h.2.1.trans rfl, h.2.2 _ (by decide)⟩

end Atelier

namespace Atelier

theorem uploadLoop_fail (env : CreateEnv) (kf : Nat → FileUpload → String)
    (rf : String → Nat → JsRow) (m : String) :
    ∀ (k : Nat) (files : List FileUpload) (i : Nat) (images : List JsRow)
      (tr : List Effect),
      k < files.length →
      (∀ j, j < k → env.uploadResult (i + j) = none) →
      env.uploadResult (i + k) = some m →
      uploadLoop env kf rf files i images tr =
        (⟨500, .errMsg m⟩, tr ++ attemptedUploads kf files i (k + 1)) := by
  intro k
  induction k with
  | zero =>
      intro files i images tr hk hok hfail
      cases files with
      | nil => simp at hk
      | cons f rest =>
          rw [Nat.add_zero] at hfail
          simp [uploadLoop, attemptedUploads, hfail]
  | succ k ih =>
      intro files i images tr hk hok hfail
      cases files with
      | nil => simp at hk
      | cons f rest =>
          have h0 : env.uploadResult i = none := by
            have := hok 0 (Nat.succ_pos k)
            simpa using this
          simp only [uploadLoop, h0]
          have hk' : k < rest.length := by
            simp only [List.length_cons] at hk
            omega
          have hok' : ∀ j, j < k → env.uploadResult ((i + 1) + j) = none := by
            intro j hj
            have hjj := hok (j + 1) (by omega)
            have he : i + (j + 1) = (i + 1) + j := by omega
            rwa [he] at hjj
          have hfail' : env.uploadResult ((i + 1) + k) = some m := by
            have he : i + (k + 1) = (i + 1) + k := by omega
            rwa [he] at hfail
          rw [ih rest (i + 1) _ _ hk' hok' hfail']
          simp [attemptedUploads, List.append_assoc]

theorem uploadLoop_success (env : CreateEnv) (kf : Nat → FileUpload → String)
    (rf : String → Nat → JsRow) :
    ∀ (files : List FileUpload) (i : Nat) (images : List JsRow)
      (tr : List Effect),
      (∀ j, j < files.length → env.uploadResult (i + j) = none) →
      env.insertImagesResult = none →
      uploadLoop env kf rf files i images tr =
        (⟨201, .okTrue⟩,
          tr ++ attemptedUploads kf files i files.length ++
            [.insertImageRows (images ++ builtRows env kf rf files i)]) := by
  intro files
  induction files with
  | nil =>
      intro i images tr _ hins
      simp [uploadLoop, attemptedUploads, builtRows, hins]
  | cons f rest ih =>
      intro i images tr hok hins
      have h0 : env.uploadResult i = none := by
        have := hok 0 (by simp)
        simpa using this
      simp only [uploadLoop, h0]
      have hok' : ∀ j, j < rest.length → env.uploadResult ((i + 1) + j) = none := by
        intro j hj
        have hjj := hok (j + 1) (by simp only [List.length_cons]; omega)
        have he : i + (j + 1) = (i + 1) + j := by omega
        rwa [he] at hjj
      rw [ih (i + 1) _ _ hok' hins]
      simp [attemptedUploads, builtRows, List.append_assoc]

theorem attemptedUploads_length (kf : Nat → FileUpload → String) :
    ∀ (files : List FileUpload) (i c : Nat), c ≤ files.length →
      (attemptedUploads kf files i c).length = c := by
  intro files
  induction files with
  | nil =>
      intro i c hc
      have : c = 0 := Nat.le_zero.mp (by simpa using hc)
      subst this
      rfl
  | cons f rest ih =>
      intro i c hc
      cases c with
      | zero => rfl
      | succ c =>
          simp only [attemptedUploads, List.length_cons]
          rw [ih (i + 1) c (by simpa using hc)]

theorem attemptedUploads_shape (kf : Nat → FileUpload → String) :
    ∀ (files : List FileUpload) (i c : Nat),
      ∀ e ∈ attemptedUploads kf files i c, isUploadBlob e = true := by
  intro files
  induction files with
  | nil =>
      intro i c e he
      cases c with
      | zero => simp [attemptedUploads] at he
      | succ c => simp [attemptedUploads] at he
  | cons f rest ih =>
      intro i c e he
      cases c with
      | zero => simp [attemptedUploads] at he
      | succ c =>
          simp only [attemptedUploads, List.mem_cons] at he
          rcases he with rfl | he
          · rfl
          · exact ih (i + 1) c e he

theorem upload_not_other (e : Effect) (h : isUploadBlob e = true) :
    isInsertImages e = false ∧ isRemoveBlob e = false ∧ isDeleteRow e = false := by
  cases e <;> simp [isUploadBlob, isInsertImages, isRemoveBlob, isDeleteRow] at h ⊢

theorem builtRows_length (env : CreateEnv) (kf : Nat → FileUpload → String)
    (rf : String → Nat → JsRow) :
    ∀ (files : List FileUpload) (i : Nat),
      (builtRows env kf rf files i).length = files.length := by
  intro files
  induction files with
  | nil => intro i; rfl
  | cons f rest ih =>
      intro i
      simp only [builtRows, List.length_cons]
      rw [ih (i + 1)]

theorem builtRows_orderIndexes (env : CreateEnv)
    (kf : Nat → FileUpload → String) (pid : String) :
    ∀ (files : List FileUpload) (i : Nat),
      (builtRows env kf (rowOfA pid) files i).map
          (fun r => rowGet r "order_index") =
        (List.range' i files.length).map
          (fun j => some (JsVal.num (Int.ofNat j))) := by
  intro files
  induction files with
  | nil => intro i; rfl
  | cons f rest ih =>
      intro i
      simp only [builtRows, List.map_cons, List.length_cons, List.range'_succ]
      rw [ih (i + 1)]
      rfl

theorem builtRows_productId (env : CreateEnv)
    (kf : Nat → FileUpload → String) (pid : String) :
    ∀ (files : List FileUpload) (i : Nat),
      ∀ r ∈ builtRows env kf (rowOfA pid) files i,
        rowGet r "product_id" = some (.str pid) := by
  intro files
  induction files with
  | nil => intro i r hr; simp [builtRows] at hr
  | cons f rest ih =>
      intro i r hr
      simp only [builtRows, List.mem_cons] at hr
      rcases hr with rfl | hr
      · rfl
      · exact ih (i + 1) r hr

/-- C3 (amended): in the index.js variants, a fully successful
POST /products with n files inserts exactly one image row per file,
each carrying the created product's id, the uploaded blob's public
URL, and order_index equal to the file's array index — the inserted
order_index values are exactly 0..n-1 in submission order — and the
response is 201 { ok: true }. -/
theorem c3_create_success_indexjs (req : CreateReq) (env : CreateEnv)
    (product : ProductRecord)
    (hT : req.title ≠ "") (hD : req.description ≠ "") (hF : req.files ≠ [])
    (hP : env.insertProductResult = .ok product)
    (hU : ∀ j, j < req.files.length → env.uploadResult j = none)
    (hI : env.insertImagesResult = none) :
    postProductsA req env =
      (⟨201, .okTrue⟩,
        .insertProduct req.title req.description ::
          (attemptedUploads (keyOfA product.id env) req.files 0 req.files.length ++
            [.insertImageRows
              (builtRows env (keyOfA product.id env) (rowOfA product.id)
                req.files 0)])) ∧
    (builtRows env (keyOfA product.id env) (rowOfA product.id)
        req.files 0).length = req.files.length ∧
    (builtRows env (keyOfA product.id env) (rowOfA product.id)
        req.files 0).map (fun r => rowGet r "order_index") =
      (List.range req.files.length).map
        (fun j => some (JsVal.num (Int.ofNat j))) ∧
    ∀ r ∈ builtRows env (keyOfA product.id env) (rowOfA product.id)
        req.files 0,
      rowGet r "product_id" = some (.str product.id) := by
  have hnot : ¬(req.title = "" ∨ req.description = "") := by
    rintro (h | h)
    · exact hT h
    · exact hD h
  have hU0 : ∀ j, j < req.files.length → env.uploadResult (0 + j) = none := by
    intro j hj
    rw [Nat.zero_add]
    exact hU j hj
  refine ⟨?_, builtRows_length env _ _ req.files 0, ?_,
    builtRows_productId env _ _ req.files 0⟩
  · simp only [postProductsA, if_neg hnot, if_neg hF, hP]
    rw [uploadLoop_success env _ _ req.files 0 [] _ hU0 hI]
    simp
  · rw [builtRows_orderIndexes env _ _ req.files 0, List.range_eq_range']

/-- Concrete request used by the C3 witness. -/
def c3Req : CreateReq :=
  ⟨"Chair", "Oak chair", [⟨"a.png", "image/png", "A"⟩, ⟨"b.png", "image/png", "B"⟩]⟩

/-- Concrete store results used by the C3 witness. -/
def c3Env : CreateEnv :=
  ⟨.ok ⟨"p1"⟩, fun _ => none, none, fun _ => 1000, "https://s.example/photos/"⟩

/-- Witness for c3_create_success_indexjs at a concrete input. -/
theorem c3_create_success_indexjs_witness :
    (postProductsA c3Req c3Env).1 = ⟨201, .okTrue⟩ ∧
    (builtRows c3Env (keyOfA "p1" c3Env) (rowOfA "p1") c3Req.files 0).map
        (fun r => rowGet r "order_index") =
      [some (JsVal.num 0), some (JsVal.num 1)] := by
  have h := c3_create_success_indexjs c3Req c3Env ⟨"p1"⟩
    (by decide) (by decide) (by decide) rfl (fun j _ => rfl) rfl
  constructor
  · rw [h.1]
  · exact (h.2.2.1).trans (by decide)

/-- Concrete request used by the C3 counterexample. -/
def c3Req001 : CreateReq :=
  ⟨"Chair", "Oak chair", [⟨"a.png", "image/png", "A"⟩, ⟨"b.png", "image/png", "B"⟩]⟩

/-- Concrete store results used by the C3 counterexample. -/
def c3Env001 : CreateEnv :=
  ⟨.ok ⟨"p1"⟩, fun _ => none, none, fun _ => 1000, "https://s.example/photos/"⟩

/-- C3 counterexample: the part_001 variant completes the same
request with 201, but the two image rows it batch-inserts carry no
order_index field at all — refuting the claim that every successful
POST /products inserts rows with order_index 0..n-1. -/
theorem c3_no_order_index_counterexample :
    (postProducts001 c3Req001 c3Env001).1 = ⟨201, .okTrue⟩ ∧
    ((insertedBatches (postProducts001 c3Req001 c3Env001).2).headD []).length = 2 ∧
    ((insertedBatches (postProducts001 c3Req001 c3Env001).2).headD []).map
        (fun r => rowGet r "order_index") = [none, none] := by
  refine ⟨rfl, rfl, rfl⟩

theorem filter_upload_cons_insert (t d : String) (l : List Effect) :
    (Effect.insertProduct t d :: l).filter isUploadBlob = l.filter isUploadBlob := by
  simp [List.filter_cons, isUploadBlob]

/-- C4: when the upload of file k fails (validation passed, the
product row was inserted, files 0..k-1 uploaded), both handler
variants answer 500 with the upload error message, attempt exactly
the uploads 0..k and none after, never call the image batch insert,
and perform no compensating deletion — the product insert and the
earlier uploads stay in the trace. -/
theorem c4_upload_failure (req : CreateReq) (env : CreateEnv)
    (product : ProductRecord) (k : Nat) (m : String)
    (hT : req.title ≠ "") (hD : req.description ≠ "")
    (hP : env.insertProductResult = .ok product)
    (hk : k < req.files.length)
    (hok : ∀ j, j < k → env.uploadResult j = none)
    (hfail : env.uploadResult k = some m) :
    postProductsA req env =
      (⟨500, .errMsg m⟩,
        .insertProduct req.title req.description ::
          attemptedUploads (keyOfA product.id env) req.files 0 (k + 1)) ∧
    ((postProductsA req env).2.filter isUploadBlob).length = k + 1 ∧
    (postProductsA req env).2.all (fun e => !(isInsertImages e)) = true ∧
    (postProductsA req env).2.all
      (fun e => !(isRemoveBlob e) && !(isDeleteRow e)) = true ∧
    Effect.insertProduct req.title req.description ∈ (postProductsA req env).2 ∧
    postProducts001 req env =
      (⟨500, .errMsg m⟩,
        .insertProduct req.title req.description ::
          attemptedUploads (keyOf001 env) req.files 0 (k + 1)) ∧
    ((postProducts001 req env).2.filter isUploadBlob).length = k + 1 := by
  have hnot : ¬(req.title = "" ∨ req.description = "") := by
    rintro (h | h)
    · exact hT h
    · exact hD h
  have hF : req.files ≠ [] := by
    intro h
    rw [h] at hk
    simp at hk
  have hok0 : ∀ j, j < k → env.uploadResult (0 + j) = none := by
    intro j hj
    rw [Nat.zero_add]
    exact hok j hj
  have hfail0 : env.uploadResult (0 + k) = some m := by
    rw [Nat.zero_add]
    exact hfail
  have hA : postProductsA req env =
      (⟨500, .errMsg m⟩,
        .insertProduct req.title req.description ::
          attemptedUploads (keyOfA product.id env) req.files 0 (k + 1)) := by
    simp only [postProductsA, if_neg hnot, if_neg hF, hP]
    rw [uploadLoop_fail env _ _ m k req.files 0 [] _ hk hok0 hfail0]
    simp
  have h001 : postProducts001 req env =
      (⟨500, .errMsg m⟩,
        .insertProduct req.title req.description ::
          attemptedUploads (keyOf001 env) req.files 0 (k + 1)) := by
    simp only [postProducts001, if_neg hnot, if_neg hF, hP]
    rw [uploadLoop_fail env _ _ m k req.files 0 [] _ hk hok0 hfail0]
    simp
  refine ⟨hA, ?_, ?_, ?_, ?_, h001, ?_⟩
  · rw [hA, filter_upload_cons_insert]
    rw [List.filter_eq_self.mpr (attemptedUploads_shape _ req.files 0 (k + 1))]
    exact attemptedUploads_length _ req.files 0 (k + 1) hk
  · rw [hA]
    rw [List.all_eq_true]
    intro e he
    simp only [List.mem_cons] at he
    rcases he with rfl | he
    · rfl
    · have hu := attemptedUploads_shape _ req.files 0 (k + 1) e he
      simp [(upload_not_other e hu).1]
  · rw [hA]
    rw [List.all_eq_true]
    intro e he
    simp only [List.mem_cons] at he
    rcases he with rfl | he
    · rfl
    · have hu := attemptedUploads_shape _ req.files 0 (k + 1) e he
      simp [(upload_not_other e hu).2.1, (upload_not_other e hu).2.2]
  · rw [hA]
    exact List.mem_cons_self _ _
  · rw [h001, filter_upload_cons_insert]
    rw [List.filter_eq_self.mpr (attemptedUploads_shape _ req.files 0 (k + 1))]
    exact attemptedUploads_length _ req.files 0 (k + 1) hk

/-- Concrete request used by the C4 witness. -/
def c4Req : CreateReq :=
  ⟨"Chair", "Oak chair", [⟨"a.png", "image/png", "A"⟩, ⟨"b.png", "image/png", "B"⟩]⟩

/-- Concrete store results used by the C4 witness: the second upload
fails. -/
def c4Env : CreateEnv :=
  ⟨.ok ⟨"p1"⟩, fun i => if i = 0 then none else some "boom", none,
    fun _ => 1000, "https://s.example/photos/"⟩

/-- Witness for c4_upload_failure at a concrete input. -/
theorem c4_upload_failure_witness :
    (postProductsA c4Req c4Env).1 = ⟨500, .errMsg "boom"⟩ ∧
    ((postProductsA c4Req c4Env).2.filter isUploadBlob).length = 2 ∧
    (postProductsA c4Req c4Env).2.all (fun e => !(isInsertImages e)) = true := by
  have h := c4_upload_failure c4Req c4Env ⟨"p1"⟩ 1 "boom"
    (by decide) (by decide) rfl (by decide)
    (by intro j hj; interval_cases j; rfl) rfl
  exact ⟨by rw [h.1], h.2.1, h.2.2.1⟩

end Atelier

namespace Atelier

theorem toString_digit : ∀ i, i < 10 → (toString i).data = [Nat.digitChar i] := by
  decide

theorem digitChar_inj_lt :
    ∀ i, i < 10 → ∀ j, j < 10 → Nat.digitChar i = Nat.digitChar j → i = j := by
  decide

/-- C5 (amended): within one request the index.js key derivations
never collide — variant A keys embed the file index (file counts are
capped at 10, so indexes are single digits), and variant B keys
embed a per-file random UUID, distinct fresh draws of equal length
giving distinct keys. -/
theorem c5_keys_distinct_indexjs (pid : String) :
    (∀ t1 t2 i1 i2, i1 < 10 → i2 < 10 → i1 ≠ i2 →
       fileNameA pid t1 i1 ≠ fileNameA pid t2 i2) ∧
    (∀ u1 u2 e1 e2 : String, u1 ≠ u2 → u1.length = u2.length →
       fileNameB pid u1 e1 ≠ fileNameB pid u2 e2) := by
  constructor
  · intro t1 t2 i1 i2 h1 h2 hne heq
    apply hne
    have h := congrArg String.data heq
    simp only [fileNameA, String.data_append] at h
    rw [toString_digit i1 h1, toString_digit i2 h2] at h
    have hl := congrArg (fun l => l.reverse.head?) h
    simp only [List.reverse_append, List.reverse_cons, List.reverse_nil,
      List.nil_append, List.cons_append, List.head?_cons, Option.some.injEq] at hl
    exact digitChar_inj_lt i1 h1 i2 h2 hl
  · intro u1 u2 e1 e2 hne hlen heq
    apply hne
    have h := congrArg String.data heq
    simp only [fileNameB, String.data_append, List.append_assoc] at h
    have h1 := (List.append_inj h rfl).2
    have h2 := (List.append_inj h1 rfl).2
    have hlen' : u1.data.length = u2.data.length := hlen
    exact String.ext (List.append_inj h2 hlen').1

/-- Witness for c5_keys_distinct_indexjs at concrete inputs. -/
theorem c5_keys_distinct_indexjs_witness :
    fileNameA "p1" 1000 0 ≠ fileNameA "p1" 1000 1 ∧
    fileNameB "p1" "aaaa" "png" ≠ fileNameB "p1" "bbbb" "png" := by
  constructor
  · exact (c5_keys_distinct_indexjs "p1").1 1000 1000 0 1
      (by decide) (by decide) (by decide)
  · exact (c5_keys_distinct_indexjs "p1").2 "aaaa" "bbbb" "png" "png"
      (by decide) (by decide)

/-- Concrete request used by the C5 counterexample: two files with
the same original name. -/
def c5Req : CreateReq :=
  ⟨"t", "d", [⟨"a.png", "image/png", "A"⟩, ⟨"a.png", "image/png", "B"⟩]⟩

/-- Concrete store results used by the C5 counterexample: both
`Date.now()` calls land in the same millisecond. -/
def c5Env : CreateEnv :=
  ⟨.ok ⟨"p1"⟩, fun _ => none, none, fun _ => 1000, "https://s.example/photos/"⟩

/-- C5 counterexample: the part_001 variant derives its blob key as
`Date.now()-originalname`, so two same-named files uploaded in the
same millisecond of one request are assigned the identical key —
refuting the claim that keys within a request are always pairwise
distinct. -/
theorem c5_collision_counterexample :
    (postProducts001 c5Req c5Env).1 = ⟨201, .okTrue⟩ ∧
    blobKeys (postProducts001 c5Req c5Env).2 = ["1000-a.png", "1000-a.png"] ∧
    ¬ (blobKeys (postProducts001 c5Req c5Env).2).Nodup := by
  refine ⟨rfl, rfl, ?_⟩
  intro hnd
  rw [show blobKeys (postProducts001 c5Req c5Env).2 =
    ["1000-a.png", "1000-a.png"] from rfl] at hnd
  rcases hnd with _ | ⟨hne, _⟩
  exact (hne "1000-a.png" (by simp)) rfl

end Atelier
